import Mathlib

/-!
Verification of the `galactic-bridge-icp` minter canister sources
(`src/minter/src/state.rs`, `src/minter/src/lib.rs`,
`src/minter/src/sol_rpc_client/mod.rs`) against the natural-language
specification.  Rust `HashMap<K, V>` fields are embedded as association
lists with extensional insert/remove operations, `u64`/`BigUint`
quantities as `Nat`, panics/traps as `Option`/`Except` failures, and the
externally supplied signing and ledger calls as function parameters.
-/

namespace GalacticBridge

/-! ## Association-list maps

Embedding of Rust `HashMap` as a list of key-value pairs.  `insert`
replaces the first binding in place or appends a fresh binding, `erase`
drops every binding of the key, matching the extensional behaviour of
`HashMap::insert` / `HashMap::remove` / `HashMap::contains_key`. -/

namespace AL

variable {K : Type} {V : Type} [DecidableEq K]

def lookup : List (K × V) → K → Option V
  | [], _ => none
  | p :: ps, k => if p.1 = k then some p.2 else lookup ps k

def contains (m : List (K × V)) (k : K) : Bool :=
  (lookup m k).isSome

def erase : List (K × V) → K → List (K × V)
  | [], _ => []
  | p :: ps, k => if p.1 = k then erase ps k else p :: erase ps k

def insert : List (K × V) → K → V → List (K × V)
  | [], k, v => [(k, v)]
  | p :: ps, k, v => if p.1 = k then (k, v) :: ps else p :: insert ps k v

def keys (m : List (K × V)) : List K :=
  m.map (fun p => p.1)

theorem lookup_insert (m : List (K × V)) (k : K) (v : V) (q : K) :
    lookup (insert m k v) q = if q = k then some v else lookup m q := by
  induction m with
  | nil =>
    by_cases h : q = k
    · subst h; simp [insert, lookup]
    · simp [insert, lookup, h, Ne.symm h]
  | cons p ps ih =>
    by_cases hp : p.1 = k
    · by_cases hq : q = k
      · subst hq; simp [insert, lookup, hp]
      · simp [insert, lookup, hp, hq, Ne.symm hq]
    · by_cases hpq : p.1 = q
      · have hqk : q ≠ k := fun h => hp (hpq.trans h)
        simp [insert, lookup, hp, hpq, hqk]
      · simp [insert, lookup, hp, hpq, ih]

theorem lookup_erase (m : List (K × V)) (k : K) (q : K) :
    lookup (erase m k) q = if q = k then none else lookup m q := by
  induction m with
  | nil => simp [erase, lookup]
  | cons p ps ih =>
    by_cases hp : p.1 = k
    · by_cases hq : q = k
      · subst hq; simp [erase, lookup, hp, ih]
      · simp [erase, lookup, hp, hq, Ne.symm hq, ih]
    · by_cases hpq : p.1 = q
      · have hqk : q ≠ k := fun h => hp (hpq.trans h)
        simp [erase, lookup, hp, hpq, hqk]
      · simp [erase, lookup, hp, hpq, ih]

theorem lookup_eq_none_of_not_mem_keys (m : List (K × V)) (k : K)
    (h : k ∉ keys m) : lookup m k = none := by
  induction m with
  | nil => rfl
  | cons p ps ih =>
    have hp : p.1 ≠ k := by
      intro hk
      exact h (by simp [keys, hk])
    have hps : k ∉ keys ps := by
      intro hk
      exact h (by simp [keys] at hk ⊢; exact Or.inr hk)
    simp [lookup, hp, ih hps]

theorem contains_insert (m : List (K × V)) (k : K) (v : V) (q : K) :
    contains (insert m k v) q = (decide (q = k) || contains m q) := by
  by_cases h : q = k <;> simp [contains, lookup_insert, h]

theorem contains_erase (m : List (K × V)) (k : K) (q : K) :
    contains (erase m k) q = (decide (q ≠ k) && contains m q) := by
  by_cases h : q = k <;> simp [contains, lookup_erase, h]

end AL

/-! ## Data model

The entity structures live in `src/minter/src/events.rs`, which is not
among the provided sources; their fields are modelled from the spec
(section 3, DATA MODEL).  Only the key fields (`sol_sig`, `burn_id`) and
the `retry` counter are inspected by the state mutators under
verification. -/

/-- Modelled from the spec: `SolanaSignature { sig, slot, retry }`, a
signature discovered but not yet fetched/classified (`events.rs` is not
among the provided sources).  The key used by the state maps is
`sol_sig`; `increment_retries` is `retry + 1`, `reset_retries` sets it
to `0`. -/
structure SolanaSignature where
  sol_sig : String
  slot : Nat
  retry : Nat
deriving DecidableEq

/-- Modelled from the spec: `DepositEvent` carries the parsed
deposit-instruction payload (`events.rs` is not among the provided
sources).  The state maps key it by `sol_sig` and the mutators touch
only its `retry` counter. -/
structure DepositEvent where
  sol_sig : String
  slot : Nat
  from_sol_address : String
  to_icp_address : String
  amount : Nat
  deposit_id : Nat
  retry : Nat
deriving DecidableEq

/-- Modelled from the spec: `WithdrawalEvent { burn_id, principal,
recipient_sol_addr, amount, ledger_burn_block, coupon?, retry }`
(`events.rs` is not among the provided sources).  `get_burn_id` returns
the `burn_id` field. -/
structure WithdrawalEvent where
  burn_id : Nat
  from_icp_address : List Nat
  to_sol_address : String
  amount : Nat
  coupon : Option String
  retry : Nat
deriving DecidableEq

/-- Modelled from the spec: `SignatureRange { before, until, retry }`
(`events.rs` is not among the provided sources). -/
structure SolanaSignatureRange where
  before_sol_sig : String
  until_sol_sig : String
  retry : Nat
deriving DecidableEq

/-- Task kinds guarding the periodic timer tasks
(`state.rs`, enum `TaskType`). -/
inductive TaskType where
  | GetLatestSignature
  | ScrapSignatureRanges
  | ScrapSignatures
  | MintGSol
deriving DecidableEq

/-- Errors returned by `State::validate_config` and `State::upgrade`
(`state.rs`, enum `InvalidStateError`). -/
inductive InvalidStateError where
  | InvalidEcdsaKeyName (msg : String)
  | InvalidLedgerId (msg : String)
  | InvalidSolanaContractAddress (msg : String)
  | InvalidMinimumWithdrawalAmount (msg : String)
  | InvalidSolanaInitialSignature (msg : String)
deriving DecidableEq

/-- The minter state (`state.rs`, struct `State`).  `HashMap` fields are
association lists, `BigUint` and `u64` fields are `Nat`, principals are
byte lists, and the cached ECDSA public key is a byte list. -/
structure State where
  solana_rpc_url : String
  solana_contract_address : String
  solana_initial_signature : String
  ecdsa_key_name : String
  ecdsa_public_key : Option (List Nat)
  ecdsa_proxy_public_key : Option String
  minimum_withdrawal_amount : Nat
  solana_last_known_signature : Option String
  solana_signature_ranges : List (String × SolanaSignatureRange)
  solana_signatures : List (String × SolanaSignature)
  invalid_events : List (String × SolanaSignature)
  accepted_events : List (String × DepositEvent)
  minted_events : List (String × DepositEvent)
  withdrawal_burned_events : List (Nat × WithdrawalEvent)
  withdrawal_redeemed_events : List (Nat × WithdrawalEvent)
  withdrawing_principals : List (List Nat)
  deposit_id_counter : Nat
  burn_id_counter : Nat
  http_request_counter : Nat
  active_tasks : List TaskType
deriving DecidableEq

/-- A state with empty collections and blank configuration, used as a
base for concrete test states. -/
def emptyState : State where
  solana_rpc_url := ""
  solana_contract_address := ""
  solana_initial_signature := ""
  ecdsa_key_name := ""
  ecdsa_public_key := none
  ecdsa_proxy_public_key := none
  minimum_withdrawal_amount := 0
  solana_last_known_signature := none
  solana_signature_ranges := []
  solana_signatures := []
  invalid_events := []
  accepted_events := []
  minted_events := []
  withdrawal_burned_events := []
  withdrawal_redeemed_events := []
  withdrawing_principals := []
  deposit_id_counter := 0
  burn_id_counter := 0
  http_request_counter := 0
  active_tasks := []

/-! ## State mutators (`state.rs`)

Rust panics (`panic!`, failed `assert!`) abort the canister message, so
the panicking mutators are embedded as `Option State` with `none` for
the panic.  `HashMap::remove` followed by `HashMap::insert` is embedded
as `AL.erase` followed by `AL.insert`. -/

/-- Embedding of `State::record_or_retry_solana_signature` (`state.rs`
lines 240-255): if the signature key already exists, remove it and
re-insert it with its retry counter incremented; otherwise insert the
argument. -/
def record_or_retry_solana_signature (st : State) (sig : SolanaSignature) : State :=
  match AL.lookup st.solana_signatures sig.sol_sig with
  | some existing =>
      { st with solana_signatures :=
          (AL.insert (AL.erase st.solana_signatures sig.sol_sig) sig.sol_sig
            ({ existing with retry := existing.retry + 1 })) }
  | none =>
      { st with solana_signatures := AL.insert st.solana_signatures sig.sol_sig sig }

/-- Embedding of `State::record_invalid_event` (`state.rs` lines
257-272): panics (`none`) unless the key is present in
`solana_signatures` and absent from `invalid_events`; moves the argument
into `invalid_events` with its retries reset. -/
def record_invalid_event (st : State) (sig : SolanaSignature) : Option State :=
  match AL.lookup st.solana_signatures sig.sol_sig with
  | none => none
  | some _ =>
      if AL.contains st.invalid_events sig.sol_sig then none
      else some { st with
        solana_signatures := AL.erase st.solana_signatures sig.sol_sig,
        invalid_events :=
          AL.insert st.invalid_events sig.sol_sig ({ sig with retry := 0 }) }

/-- Embedding of `State::record_or_retry_accepted_event` (`state.rs`
lines 274-299): if the key is not yet accepted, panics (`none`) unless
the signature exists, then moves it to `accepted_events`; if already
accepted, increments the stored event's retry counter. -/
def record_or_retry_accepted_event (st : State) (deposit : DepositEvent) : Option State :=
  match AL.lookup st.accepted_events deposit.sol_sig with
  | none =>
      match AL.lookup st.solana_signatures deposit.sol_sig with
      | some _ => some { st with
          solana_signatures := AL.erase st.solana_signatures deposit.sol_sig,
          accepted_events := AL.insert st.accepted_events deposit.sol_sig deposit }
      | none => none
  | some existing =>
      some { st with accepted_events :=
        (AL.insert (AL.erase st.accepted_events deposit.sol_sig) deposit.sol_sig
          ({ existing with retry := existing.retry + 1 })) }

/-- Embedding of `State::record_minted_event` (`state.rs` lines
301-316): panics (`none`) unless the key is present in
`accepted_events` and absent from `minted_events`; moves the argument
into `minted_events` with its retries reset. -/
def record_minted_event (st : State) (deposit : DepositEvent) : Option State :=
  match AL.lookup st.accepted_events deposit.sol_sig with
  | none => none
  | some _ =>
      if AL.contains st.minted_events deposit.sol_sig then none
      else some { st with
        accepted_events := AL.erase st.accepted_events deposit.sol_sig,
        minted_events :=
          AL.insert st.minted_events deposit.sol_sig ({ deposit with retry := 0 }) }

/-- Embedding of `State::record_or_retry_withdrawal_burned_event`
(`state.rs` lines 318-335): insert the withdrawal when its `burn_id` is
new, otherwise increment the stored entry's retry counter. -/
def record_or_retry_withdrawal_burned_event (st : State) (w : WithdrawalEvent) : State :=
  match AL.lookup st.withdrawal_burned_events w.burn_id with
  | none =>
      { st with withdrawal_burned_events :=
          AL.insert st.withdrawal_burned_events w.burn_id w }
  | some event =>
      { st with withdrawal_burned_events :=
          (AL.insert (AL.erase st.withdrawal_burned_events w.burn_id) w.burn_id
            ({ event with retry := event.retry + 1 })) }

/-- Embedding of `State::record_withdrawal_redeemed_event` (`state.rs`
lines 337-347): panics (`none`) unless the `burn_id` is present in
`withdrawal_burned_events`; moves the argument into
`withdrawal_redeemed_events` with its retries reset. -/
def record_withdrawal_redeemed_event (st : State) (w : WithdrawalEvent) : Option State :=
  match AL.lookup st.withdrawal_burned_events w.burn_id with
  | none => none
  | some _ =>
      some { st with
        withdrawal_burned_events := AL.erase st.withdrawal_burned_events w.burn_id,
        withdrawal_redeemed_events :=
          AL.insert st.withdrawal_redeemed_events w.burn_id ({ w with retry := 0 }) }

/-! ## Configuration validation and upgrade (`state.rs`) -/

/-- Rust's `str::trim().is_empty()`: true exactly when the string has
no non-whitespace character (written over the character list so that it
evaluates in the kernel). -/
def trimIsEmpty (s : String) : Bool :=
  s.data.all Char.isWhitespace

/-- Embedding of `State::validate_config` (`state.rs` lines 94-116):
rejects a blank `ecdsa_key_name`, an empty `solana_contract_address` or
`solana_initial_signature`, and a zero `minimum_withdrawal_amount`. -/
def validate_config (s : State) : Except InvalidStateError Unit :=
  if trimIsEmpty s.ecdsa_key_name then
    Except.error (InvalidStateError.InvalidEcdsaKeyName "ecdsa_key_name cannot be blank")
  else if trimIsEmpty s.solana_contract_address then
    Except.error (InvalidStateError.InvalidSolanaContractAddress
      "solana_contract_address cannot be empty")
  else if trimIsEmpty s.solana_initial_signature then
    Except.error (InvalidStateError.InvalidSolanaInitialSignature
      "solana_initial_signature cannot be empty")
  else if s.minimum_withdrawal_amount = 0 then
    Except.error (InvalidStateError.InvalidMinimumWithdrawalAmount
      "minimum_withdrawal_amount must be positive")
  else
    Except.ok ()

/-- Upgrade delta (`lifecycle.rs`, struct `UpgradeArg`, not among the
provided sources; its five optional fields are destructured explicitly
by `State::upgrade` in `state.rs` lines 119-125).  The candid `Nat` of
`minimum_withdrawal_amount` is a non-negative big integer, so the
`to_biguint` conversion in `State::upgrade` always succeeds. -/
structure UpgradeArg where
  solana_rpc_url : Option String
  solana_contract_address : Option String
  solana_initial_signature : Option String
  ecdsa_key_name : Option String
  minimum_withdrawal_amount : Option Nat
deriving DecidableEq

/-- Embedding of `State::upgrade` (`state.rs` lines 118-149).  The Rust
function mutates `&mut self` field by field and only then runs
`validate_config`; the embedding returns the mutated state together
with the validation result. -/
def State.upgrade (s : State) (args : UpgradeArg) : State × Except InvalidStateError Unit :=
  let s1 := match args.solana_rpc_url with
    | some url => { s with solana_rpc_url := url }
    | none => s
  let s2 := match args.solana_contract_address with
    | some address => { s1 with solana_contract_address := address }
    | none => s1
  let s3 := match args.solana_initial_signature with
    | some signature => { s2 with solana_initial_signature := signature }
    | none => s2
  let s4 := match args.ecdsa_key_name with
    | some key_name => { s3 with ecdsa_key_name := key_name }
    | none => s3
  let s5 := match args.minimum_withdrawal_amount with
    | some amount => { s4 with minimum_withdrawal_amount := amount }
    | none => s4
  (s5, validate_config s5)

/-- The upgrade delta applied field by field, written directly from the
spec sentence "Upgrade delta applies field-by-field" for comparison with
the source-translated `State.upgrade`. -/
def applyUpgradeDelta (s : State) (args : UpgradeArg) : State :=
  { s with
    solana_rpc_url := args.solana_rpc_url.getD s.solana_rpc_url,
    solana_contract_address := args.solana_contract_address.getD s.solana_contract_address,
    solana_initial_signature := args.solana_initial_signature.getD s.solana_initial_signature,
    ecdsa_key_name := args.ecdsa_key_name.getD s.ecdsa_key_name,
    minimum_withdrawal_amount :=
      args.minimum_withdrawal_amount.getD s.minimum_withdrawal_amount }

/-! ## Proxy token cache (`sol_rpc_client/mod.rs`) -/

/-- Nanoseconds per second (`sol_rpc_client/mod.rs` line 32). -/
def SECONDS : Nat := 1000000000

/-- Proxy token refresh interval in seconds
(`sol_rpc_client/mod.rs` line 33). -/
def REFRESH_PROXY_TOKEN_INTERVAL : Nat := 60 * 60

/-- Agent name baked into the proxy token
(`sol_rpc_client/mod.rs` line 34). -/
def AGENT_NAME : String := "Pipans"

/-- Embedding of `SolRpcClient::get_agent_token` (`sol_rpc_client/mod.rs`
lines 81-95).  `cache` is the `AGENT_TOKEN_N_EXPIRY` thread-local pair
(token, expiry in seconds), `now` is `ic_cdk::api::time()` in
nanoseconds, and `sign_proxy_token` (an external threshold-signing call
in `escda.rs`, not among the provided sources) is passed as a function
of key name, expiry and agent name.  Returns the token handed to the
caller together with the updated cache. -/
def get_agent_token (cache : String × Nat) (now : Nat) (ecdsa_key_name : String)
    (sign_proxy_token : String → Nat → String → String) : String × (String × Nat) :=
  let token := cache.1
  let expire_at := cache.2
  if expire_at < now / SECONDS then
    let new_expire_at := now / SECONDS + REFRESH_PROXY_TOKEN_INTERVAL
    let new_token := sign_proxy_token ecdsa_key_name (new_expire_at + 120) AGENT_NAME
    (new_token, (new_token, new_expire_at))
  else
    (token, cache)

/-! ## Withdraw entry checks (`lib.rs`) -/

/-- The anonymous principal (`candid::Principal::anonymous()`), the
single byte `0x04`. -/
def ANONYMOUS_PRINCIPAL : List Nat := [4]

/-- Embedding of `is_over_limit` (`lib.rs` lines 313-322): traps
(`Except.error`) when the configured minimum withdrawal amount compares
`Greater` than the requested amount. -/
def is_over_limit (st : State) (withdraw_amount : Nat) : Except String Unit :=
  match compare st.minimum_withdrawal_amount withdraw_amount with
  | Ordering.gt => Except.error "withdraw amount is less than minimum withdrawal amount"
  | _ => Except.ok ()

/-- Embedding of the `withdraw` update method entry checks (`lib.rs`
lines 179-188): reject the anonymous caller, then apply the
`is_over_limit` amount check, and only then run the withdrawal body
(`withdraw_gsol` lives in `withdraw.rs`, not among the provided sources,
and is passed as a function).  A trap on the IC rolls the message back,
so a rejection leaves the state unchanged. -/
def withdraw {A : Type} (st : State) (caller : List Nat) (withdraw_amount : Nat)
    (body : State → A × State) : Except String A × State :=
  if caller = ANONYMOUS_PRINCIPAL then
    (Except.error "anonymous principal is not allowed", st)
  else
    match is_over_limit st withdraw_amount with
    | Except.error e => (Except.error e, st)
    | Except.ok _ =>
        let r := body st
        (Except.ok r.1, r.2)

/-! ## HTTP outcall request construction (`sol_rpc_client/mod.rs`) -/

/-- An HTTP header name/value pair
(`ic_cdk::api::management_canister::http_request::HttpHeader`). -/
structure HttpHeader where
  name : String
  value : String
deriving DecidableEq

/-- The HTTP outcall argument assembled by `SolRpcClient::rpc_call`
(`ic_cdk::api::management_canister::http_request::CanisterHttpRequestArgument`);
the transform is identified by the name of the transform query method. -/
structure CanisterHttpRequestArgument where
  url : String
  method : String
  max_response_bytes : Nat
  body : String
  transform : String
  headers : List HttpHeader
deriving DecidableEq

/-- Embedding of the request construction in `SolRpcClient::rpc_call`
(`sol_rpc_client/mod.rs` lines 97-149).  `rpc_url` is the client's
configured `SolanaRpcUrl` field; the function receives the already
computed agent token and idempotency key, since those are produced by
the token cache and the rolling chain id.  The URL is hardcoded to the
idempotent-proxy worker host and does not read `rpc_url`. -/
def rpc_call_request (rpc_url : String) (payload : String)
    (effective_size_estimate : Nat) (token : String) (idempotent_key : String) :
    CanisterHttpRequestArgument :=
  let host := "idempotent-proxy-cf-worker.rio-lee.workers.dev"
  let url := "https://" ++ host ++ "/URL_SOLANA_DEVNET"
  { url := url
    method := "POST"
    max_response_bytes := effective_size_estimate
    body := payload
    transform := "cleanup_response"
    headers := [
      { name := "Host", value := host ++ ":443" },
      { name := "Content-Type", value := "application/json" },
      { name := "idempotency-key", value := idempotent_key },
      { name := "proxy-authorization", value := "Bearer " ++ token }] }

/-- Embedding of the `effective_size_estimate` computation in
`SolRpcClient::get_signatures_for_address` (`sol_rpc_client/mod.rs`
lines 248-252): `(limit as u64) * SIGNATURE_RESPONSE_SIZE_ESTIMATE +
HEADER_SIZE_LIMIT` in wrapping `u64` arithmetic.  The two constants are
defined in `sol_rpc_client/types.rs`, which is not among the provided
sources, so they are taken as parameters. -/
def signatures_effective_size_estimate (signature_response_size_estimate : Nat)
    (header_size_limit : Nat) (limit : Nat) : Nat :=
  (limit * signature_response_size_estimate + header_size_limit) % 2 ^ 64

/-- Embedding of the `effective_size_estimate` computation in
`SolRpcClient::get_transactions` (`sol_rpc_client/mod.rs` lines
324-326): `(signatures.len() as u64) * TRANSACTION_RESPONSE_SIZE_ESTIMATE
+ HEADER_SIZE_LIMIT` in wrapping `u64` arithmetic, with the constants
from `sol_rpc_client/types.rs` taken as parameters. -/
def transactions_effective_size_estimate (transaction_response_size_estimate : Nat)
    (header_size_limit : Nat) (signature_count : Nat) : Nat :=
  (signature_count * transaction_response_size_estimate + header_size_limit) % 2 ^ 64

/-- The HTTP request issued by `SolRpcClient::get_signatures_for_address`
(`sol_rpc_client/mod.rs` lines 220-254): the serialized JSON-RPC payload
is passed to `rpc_call` together with the computed size estimate. -/
def get_signatures_for_address_request (signature_response_size_estimate : Nat)
    (header_size_limit : Nat) (rpc_url : String) (payload : String)
    (token : String) (idempotent_key : String) (limit : Nat) :
    CanisterHttpRequestArgument :=
  rpc_call_request rpc_url payload
    (signatures_effective_size_estimate signature_response_size_estimate
      header_size_limit limit) token idempotent_key

/-- The HTTP request issued by `SolRpcClient::get_transactions`
(`sol_rpc_client/mod.rs` lines 289-328): the serialized JSON-RPC batch
payload is passed to `rpc_call` together with the computed size
estimate over the number of requested signatures. -/
def get_transactions_request (transaction_response_size_estimate : Nat)
    (header_size_limit : Nat) (rpc_url : String) (payload : String)
    (token : String) (idempotent_key : String) (signatures : List String) :
    CanisterHttpRequestArgument :=
  rpc_call_request rpc_url payload
    (transactions_effective_size_estimate transaction_response_size_estimate
      header_size_limit signatures.length) token idempotent_key

/-! ## Response transform (`lib.rs`) -/

/-- An HTTP response as delivered to the transform function
(`ic_cdk::api::management_canister::http_request::HttpResponse`). -/
structure HttpResponse where
  status : Nat
  headers : List HttpHeader
  body : List Nat
deriving DecidableEq

/-- Transform arguments
(`ic_cdk::api::management_canister::http_request::TransformArgs`). -/
structure TransformArgs where
  response : HttpResponse
  context : List Nat
deriving DecidableEq

/-- Embedding of `cleanup_response` (`lib.rs` lines 244-253): clears the
response headers and returns the response otherwise unchanged. -/
def cleanup_response (args : TransformArgs) : HttpResponse :=
  { args.response with headers := [] }

/-! ## Canister allow-list guard (`lib.rs`) -/

/-- `BTOWN_CANISTER_LOCAL` (`lib.rs` line 35), principal bytes. -/
def BTOWN_CANISTER_LOCAL : List Nat := [128, 0, 0, 0, 0, 16, 0, 12, 1, 1]

/-- `_BTOWN_CANISTER_MAINNET` (`lib.rs` lines 36-37), principal bytes. -/
def BTOWN_CANISTER_MAINNET : List Nat := [0, 0, 0, 0, 1, 16, 121, 223, 1, 1]

/-- `BTOWN_CANISTER_STAGING` (`lib.rs` lines 38-39), principal bytes. -/
def BTOWN_CANISTER_STAGING : List Nat := [0, 0, 0, 0, 0, 224, 134, 65, 1, 1]

/-- Embedding of `get_btown_nft_canister` (`lib.rs` lines 41-48):
`dfx_network_env` is the compile-time `option_env!("DFX_NETWORK")`,
defaulted to "local".  When it equals "ic" the STAGING principal is
returned (the MAINNET constant is left unused), otherwise the LOCAL
principal. -/
def get_btown_nft_canister (dfx_network_env : Option String) : List Nat :=
  if dfx_network_env.getD "local" = "ic" then
    BTOWN_CANISTER_STAGING
  else
    BTOWN_CANISTER_LOCAL

/-- Embedding of `is_allowed_canister` (`lib.rs` lines 50-57):
`controllers` stands for the set of canister controllers consulted by
`ic_cdk::api::is_controller`. -/
def is_allowed_canister (caller : List Nat) (controllers : List (List Nat))
    (dfx_network_env : Option String) : Except String Unit :=
  if caller = get_btown_nft_canister dfx_network_env ∨ caller ∈ controllers then
    Except.ok ()
  else
    Except.error "caller is not a valid canister"

/-- An update method guarded by `is_allowed_canister` (the
`#[update(guard = ...)]` attribute on `withdraw`, `trigger_check` and
`get_coupon` in `lib.rs`): the guard runs before the method body, and a
guard rejection returns the error without touching the state. -/
def run_guarded_update {A : Type} (caller : List Nat) (controllers : List (List Nat))
    (dfx_network_env : Option String) (body : State → A × State) (st : State) :
    Except String A × State :=
  match is_allowed_canister caller controllers dfx_network_env with
  | Except.error e => (Except.error e, st)
  | Except.ok _ =>
      let r := body st
      (Except.ok r.1, r.2)

/-! ## Invariant predicates -/

/-- Number of the four deposit-lifecycle maps (`solana_signatures`,
`invalid_events`, `accepted_events`, `minted_events`) of which `s` is a
key. -/
def sigKeyCount (st : State) (s : String) : Nat :=
  (AL.contains st.solana_signatures s).toNat +
    (AL.contains st.invalid_events s).toNat +
    (AL.contains st.accepted_events s).toNat +
    (AL.contains st.minted_events s).toNat

/-- Spec section 8: "For all sigs s: s belongs to at most one of
{signatures, invalid, accepted, minted}". -/
def SigDisjoint (st : State) : Prop :=
  ∀ s : String, sigKeyCount st s ≤ 1

/-- All keys appearing in the four deposit-lifecycle maps. -/
def stateSigKeys (st : State) : List String :=
  AL.keys st.solana_signatures ++ AL.keys st.invalid_events ++
    AL.keys st.accepted_events ++ AL.keys st.minted_events

theorem sigDisjoint_of_keys (st : State)
    (h : ∀ s ∈ stateSigKeys st, sigKeyCount st s ≤ 1) : SigDisjoint st := by
  intro s
  by_cases hs : s ∈ stateSigKeys st
  · exact h s hs
  · have h1 : s ∉ AL.keys st.solana_signatures := fun hm => hs (by simp [stateSigKeys, hm])
    have h2 : s ∉ AL.keys st.invalid_events := fun hm => hs (by simp [stateSigKeys, hm])
    have h3 : s ∉ AL.keys st.accepted_events := fun hm => hs (by simp [stateSigKeys, hm])
    have h4 : s ∉ AL.keys st.minted_events := fun hm => hs (by simp [stateSigKeys, hm])
    simp [sigKeyCount, AL.contains, AL.lookup_eq_none_of_not_mem_keys _ _ h1,
      AL.lookup_eq_none_of_not_mem_keys _ _ h2,
      AL.lookup_eq_none_of_not_mem_keys _ _ h3,
      AL.lookup_eq_none_of_not_mem_keys _ _ h4]

/-- Spec section 8: "For all withdrawal events w: w belongs to exactly
one of {burned, redeemed}".  An event present in the state is a value of
one of the two maps, so exactly-one membership is the statement that no
`burn_id` keys both maps at once. -/
def WithdrawalDisjoint (st : State) : Prop :=
  ∀ id : Nat, ¬(AL.contains st.withdrawal_burned_events id = true ∧
      AL.contains st.withdrawal_redeemed_events id = true)

theorem withdrawalDisjoint_of_keys (st : State)
    (h : ∀ id ∈ AL.keys st.withdrawal_burned_events,
      ¬(AL.contains st.withdrawal_burned_events id = true ∧
        AL.contains st.withdrawal_redeemed_events id = true)) :
    WithdrawalDisjoint st := by
  intro id
  by_cases hid : id ∈ AL.keys st.withdrawal_burned_events
  · exact h id hid
  · simp [AL.contains, AL.lookup_eq_none_of_not_mem_keys _ _ hid]

/-- Incrementing the retry counter of the entry stored under key `k` of
`solana_signatures`, leaving everything else unchanged (the "one retry
increment" of the spec's idempotence law). -/
def increment_signature_retry (st : State) (k : String) : State :=
  match AL.lookup st.solana_signatures k with
  | some e =>
      { st with solana_signatures :=
          (AL.insert (AL.erase st.solana_signatures k) k
            ({ e with retry := e.retry + 1 })) }
  | none => st

/-- Incrementing the retry counter of the entry stored under key `id` of
`withdrawal_burned_events`, leaving everything else unchanged. -/
def increment_withdrawal_burned_retry (st : State) (id : Nat) : State :=
  match AL.lookup st.withdrawal_burned_events id with
  | some e =>
      { st with withdrawal_burned_events :=
          (AL.insert (AL.erase st.withdrawal_burned_events id) id
            ({ e with retry := e.retry + 1 })) }
  | none => st

/-! ## Preservation lemmas for the deposit-lifecycle maps -/

theorem record_invalid_event_disjoint (st : State) (sig : SolanaSignature) (st2 : State)
    (h : record_invalid_event st sig = some st2) (hd : SigDisjoint st) : SigDisjoint st2 := by
  unfold record_invalid_event at h
  cases hl : AL.lookup st.solana_signatures sig.sol_sig with
  | none => rw [hl] at h; cases h
  | some e =>
    rw [hl] at h
    by_cases hinv : AL.contains st.invalid_events sig.sol_sig = true
    · rw [if_pos hinv] at h; cases h
    · rw [if_neg hinv] at h
      cases h
      intro s
      by_cases hs : s = sig.sol_sig
      · subst hs
        have hdk := hd sig.sol_sig
        simp only [sigKeyCount, AL.contains, hl, Option.isSome_some, Bool.toNat_true] at hdk
        simp only [sigKeyCount, AL.contains, AL.lookup_erase, AL.lookup_insert,
          eq_self_iff_true, if_true, Option.isSome_some, Option.isSome_none,
          Bool.toNat_true, Bool.toNat_false]
        omega
      · have hds := hd s
        simp only [sigKeyCount, AL.contains] at hds
        simp only [sigKeyCount, AL.contains, AL.lookup_erase, AL.lookup_insert, if_neg hs]
        exact hds

theorem record_or_retry_accepted_event_disjoint (st : State) (deposit : DepositEvent)
    (st2 : State) (h : record_or_retry_accepted_event st deposit = some st2)
    (hd : SigDisjoint st) : SigDisjoint st2 := by
  unfold record_or_retry_accepted_event at h
  cases ha : AL.lookup st.accepted_events deposit.sol_sig with
  | none =>
    rw [ha] at h
    cases hl : AL.lookup st.solana_signatures deposit.sol_sig with
    | none => rw [hl] at h; cases h
    | some e =>
      rw [hl] at h
      cases h
      intro s
      by_cases hs : s = deposit.sol_sig
      · subst hs
        have hdk := hd deposit.sol_sig
        simp only [sigKeyCount, AL.contains, hl, Option.isSome_some, Bool.toNat_true] at hdk
        simp only [sigKeyCount, AL.contains, AL.lookup_erase, AL.lookup_insert,
          eq_self_iff_true, if_true, Option.isSome_some, Option.isSome_none,
          Bool.toNat_true, Bool.toNat_false]
        omega
      · have hds := hd s
        simp only [sigKeyCount, AL.contains] at hds
        simp only [sigKeyCount, AL.contains, AL.lookup_erase, AL.lookup_insert, if_neg hs]
        exact hds
  | some existing =>
    rw [ha] at h
    cases h
    intro s
    by_cases hs : s = deposit.sol_sig
    · subst hs
      have hdk := hd deposit.sol_sig
      simp only [sigKeyCount, AL.contains, ha, Option.isSome_some, Bool.toNat_true] at hdk
      simp only [sigKeyCount, AL.contains, AL.lookup_erase, AL.lookup_insert,
        eq_self_iff_true, if_true, Option.isSome_some, Bool.toNat_true]
      omega
    · have hds := hd s
      simp only [sigKeyCount, AL.contains] at hds
      simp only [sigKeyCount, AL.contains, AL.lookup_erase, AL.lookup_insert, if_neg hs]
      exact hds

theorem record_minted_event_disjoint (st : State) (deposit : DepositEvent) (st2 : State)
    (h : record_minted_event st deposit = some st2) (hd : SigDisjoint st) : SigDisjoint st2 := by
  unfold record_minted_event at h
  cases hl : AL.lookup st.accepted_events deposit.sol_sig with
  | none => rw [hl] at h; cases h
  | some e =>
    rw [hl] at h
    by_cases hm : AL.contains st.minted_events deposit.sol_sig = true
    · rw [if_pos hm] at h; cases h
    · rw [if_neg hm] at h
      cases h
      intro s
      by_cases hs : s = deposit.sol_sig
      · subst hs
        have hdk := hd deposit.sol_sig
        simp only [sigKeyCount, AL.contains, hl, Option.isSome_some, Bool.toNat_true] at hdk
        simp only [sigKeyCount, AL.contains, AL.lookup_erase, AL.lookup_insert,
          eq_self_iff_true, if_true, Option.isSome_some, Option.isSome_none,
          Bool.toNat_true, Bool.toNat_false]
        omega
      · have hds := hd s
        simp only [sigKeyCount, AL.contains] at hds
        simp only [sigKeyCount, AL.contains, AL.lookup_erase, AL.lookup_insert, if_neg hs]
        exact hds

theorem record_or_retry_solana_signature_disjoint (st : State) (sig : SolanaSignature)
    (hd : SigDisjoint st)
    (hfree : AL.contains st.invalid_events sig.sol_sig = false ∧
      AL.contains st.accepted_events sig.sol_sig = false ∧
      AL.contains st.minted_events sig.sol_sig = false) :
    SigDisjoint (record_or_retry_solana_signature st sig) := by
  obtain ⟨h2, h3, h4⟩ := hfree
  simp only [AL.contains] at h2 h3 h4
  unfold record_or_retry_solana_signature
  cases hl : AL.lookup st.solana_signatures sig.sol_sig with
  | some e =>
    intro s
    by_cases hs : s = sig.sol_sig
    · subst hs
      simp only [sigKeyCount, AL.contains, AL.lookup_erase, AL.lookup_insert,
        eq_self_iff_true, if_true, Option.isSome_some, Bool.toNat_true,
        h2, h3, h4, Bool.toNat_false]
      omega
    · have hds := hd s
      simp only [sigKeyCount, AL.contains] at hds
      simp only [sigKeyCount, AL.contains, AL.lookup_erase, AL.lookup_insert, if_neg hs]
      exact hds
  | none =>
    intro s
    by_cases hs : s = sig.sol_sig
    · subst hs
      simp only [sigKeyCount, AL.contains, AL.lookup_insert, eq_self_iff_true, if_true,
        Option.isSome_some, Bool.toNat_true, h2, h3, h4, Bool.toNat_false]
      omega
    · have hds := hd s
      simp only [sigKeyCount, AL.contains] at hds
      simp only [sigKeyCount, AL.contains, AL.lookup_insert, if_neg hs]
      exact hds

/-! ## Preservation lemmas for the withdrawal maps -/

theorem record_withdrawal_redeemed_event_disjoint (st : State) (w : WithdrawalEvent)
    (st2 : State) (h : record_withdrawal_redeemed_event st w = some st2)
    (hd : WithdrawalDisjoint st) : WithdrawalDisjoint st2 := by
  unfold record_withdrawal_redeemed_event at h
  cases hl : AL.lookup st.withdrawal_burned_events w.burn_id with
  | none => rw [hl] at h; cases h
  | some e =>
    rw [hl] at h
    cases h
    intro id
    by_cases hid : id = w.burn_id
    · subst hid
      simp [AL.contains, AL.lookup_erase]
    · simp only [AL.contains, AL.lookup_erase, AL.lookup_insert, if_neg hid]
      exact hd id

theorem record_or_retry_withdrawal_burned_event_disjoint (st : State) (w : WithdrawalEvent)
    (hd : WithdrawalDisjoint st)
    (hfree : AL.contains st.withdrawal_redeemed_events w.burn_id = false) :
    WithdrawalDisjoint (record_or_retry_withdrawal_burned_event st w) := by
  simp only [AL.contains] at hfree
  unfold record_or_retry_withdrawal_burned_event
  cases hl : AL.lookup st.withdrawal_burned_events w.burn_id with
  | none =>
    intro id
    by_cases hid : id = w.burn_id
    · subst hid
      simp [AL.contains, hfree]
    · simp only [AL.contains, AL.lookup_insert, if_neg hid]
      exact hd id
  | some e =>
    intro id
    by_cases hid : id = w.burn_id
    · subst hid
      simp [AL.contains, hfree]
    · simp only [AL.contains, AL.lookup_erase, AL.lookup_insert, if_neg hid]
      exact hd id

/-! ## Idempotence lemmas -/

theorem record_or_retry_withdrawal_burned_event_twice (st : State) (w : WithdrawalEvent) :
    record_or_retry_withdrawal_burned_event (record_or_retry_withdrawal_burned_event st w) w
      = increment_withdrawal_burned_retry
          (record_or_retry_withdrawal_burned_event st w) w.burn_id := by
  cases hl : AL.lookup st.withdrawal_burned_events w.burn_id with
  | none =>
    simp [record_or_retry_withdrawal_burned_event, increment_withdrawal_burned_retry, hl,
      AL.lookup_insert]
  | some e =>
    simp [record_or_retry_withdrawal_burned_event, increment_withdrawal_burned_retry, hl,
      AL.lookup_insert]

/-! ## Concrete sample data for witnesses and counterexamples -/

/-- A sample discovered signature with key "a". -/
def sigA : SolanaSignature := { sol_sig := "a", slot := 1, retry := 0 }

/-- A sample deposit event with key "a". -/
def depA : DepositEvent :=
  { sol_sig := "a", slot := 1, from_sol_address := "sender", to_icp_address := "recv",
    amount := 10, deposit_id := 0, retry := 0 }

/-- A sample withdrawal event with burn id 1. -/
def wA : WithdrawalEvent :=
  { burn_id := 1, from_icp_address := [1], to_sol_address := "Sol1", amount := 5,
    coupon := none, retry := 0 }

/-- A state holding only the discovered signature "a". -/
def stW1 : State := { emptyState with solana_signatures := [("a", sigA)] }

/-- The state after classifying "a" as invalid from `stW1`. -/
def stW1inv : State := { emptyState with invalid_events := [("a", sigA)] }

/-- The state after accepting "a" from `stW1`. -/
def stW1acc : State := { emptyState with accepted_events := [("a", depA)] }

/-- The state after minting "a" from `stW1acc`. -/
def stW3min : State := { emptyState with minted_events := [("a", depA)] }

/-- A state holding only the burned withdrawal 1. -/
def stB1 : State := { emptyState with withdrawal_burned_events := [(1, wA)] }

/-- A state holding only the redeemed withdrawal 1. -/
def stR1 : State := { emptyState with withdrawal_redeemed_events := [(1, wA)] }

/-! ## Claim theorems -/

/-- C1 (counterexample): the claim that every state mutator preserves
the four-way disjointness fails on `record_or_retry_solana_signature`.
In the disjoint state whose only entry is signature "a" in
`invalid_events`, recording "a" as a discovered signature inserts it
into `solana_signatures` without checking the other maps, leaving "a" a
key of two maps at once. -/
theorem sig_lifecycle_disjointness_counterexample :
    SigDisjoint stW1inv ∧
      ¬SigDisjoint (record_or_retry_solana_signature stW1inv sigA) := by
  constructor
  · exact sigDisjoint_of_keys stW1inv (by decide)
  · intro h
    have hone := h "a"
    revert hone
    decide

/-- C1 (amended): for every signature `s`, `s` is a key of at most one
of `solana_signatures`, `invalid_events`, `accepted_events` and
`minted_events`, and this disjointness is preserved by
`record_invalid_event`, `record_or_retry_accepted_event` and
`record_minted_event` on every non-panicking call, and by
`record_or_retry_solana_signature` whenever the recorded signature is
not currently a key of the invalid, accepted or minted maps. -/
theorem sig_lifecycle_disjointness_preserved_amended :
    (∀ (st : State) (sig : SolanaSignature) (st2 : State),
        record_invalid_event st sig = some st2 → SigDisjoint st → SigDisjoint st2)
    ∧ (∀ (st : State) (d : DepositEvent) (st2 : State),
        record_or_retry_accepted_event st d = some st2 → SigDisjoint st → SigDisjoint st2)
    ∧ (∀ (st : State) (d : DepositEvent) (st2 : State),
        record_minted_event st d = some st2 → SigDisjoint st → SigDisjoint st2)
    ∧ (∀ (st : State) (sig : SolanaSignature),
        SigDisjoint st →
        AL.contains st.invalid_events sig.sol_sig = false ∧
          AL.contains st.accepted_events sig.sol_sig = false ∧
          AL.contains st.minted_events sig.sol_sig = false →
        SigDisjoint (record_or_retry_solana_signature st sig)) :=
  ⟨record_invalid_event_disjoint, record_or_retry_accepted_event_disjoint,
    record_minted_event_disjoint, record_or_retry_solana_signature_disjoint⟩

/-- C1 (witness): the amended preservation statements applied to
concrete one-entry states. -/
theorem sig_lifecycle_disjointness_preserved_amended_witness :
    SigDisjoint stW1inv ∧ SigDisjoint stW1acc ∧ SigDisjoint stW3min ∧
      SigDisjoint (record_or_retry_solana_signature stW1 sigA) := by
  refine ⟨?_, ?_, ?_, ?_⟩
  · exact sig_lifecycle_disjointness_preserved_amended.1 stW1 sigA stW1inv (by decide)
      (sigDisjoint_of_keys stW1 (by decide))
  · exact sig_lifecycle_disjointness_preserved_amended.2.1 stW1 depA stW1acc (by decide)
      (sigDisjoint_of_keys stW1 (by decide))
  · exact sig_lifecycle_disjointness_preserved_amended.2.2.1 stW1acc depA stW3min (by decide)
      (sigDisjoint_of_keys stW1acc (by decide))
  · exact sig_lifecycle_disjointness_preserved_amended.2.2.2 stW1 sigA
      (sigDisjoint_of_keys stW1 (by decide)) (by decide)

/-- C2 (counterexample): `record_or_retry_withdrawal_burned_event` does
not preserve the exactly-one membership unconditionally.  In the state
whose only entry is withdrawal 1 in `withdrawal_redeemed_events`,
recording a burned withdrawal with burn id 1 inserts it into
`withdrawal_burned_events` without checking the redeemed map, leaving
burn id 1 a key of both maps. -/
theorem withdrawal_exactly_one_counterexample :
    WithdrawalDisjoint stR1 ∧
      ¬WithdrawalDisjoint (record_or_retry_withdrawal_burned_event stR1 wA) := by
  constructor
  · exact withdrawalDisjoint_of_keys stR1 (by decide)
  · intro h
    have hone := h 1
    revert hone
    decide

/-- C2 (amended): every withdrawal event present in the state has its
burn id in exactly one of `withdrawal_burned_events` and
`withdrawal_redeemed_events`;
`record_or_retry_withdrawal_burned_event` preserves this whenever the
burn id is not currently redeemed and is idempotent on burn id (a
repeated call only increments the stored entry's retry counter), and
`record_withdrawal_redeemed_event` preserves it on every non-panicking
call. -/
theorem withdrawal_exactly_one_preserved_amended :
    (∀ (st : State) (w : WithdrawalEvent),
        WithdrawalDisjoint st →
        AL.contains st.withdrawal_redeemed_events w.burn_id = false →
        WithdrawalDisjoint (record_or_retry_withdrawal_burned_event st w))
    ∧ (∀ (st : State) (w : WithdrawalEvent) (st2 : State),
        record_withdrawal_redeemed_event st w = some st2 →
        WithdrawalDisjoint st → WithdrawalDisjoint st2)
    ∧ (∀ (st : State) (w : WithdrawalEvent),
        record_or_retry_withdrawal_burned_event
            (record_or_retry_withdrawal_burned_event st w) w
          = increment_withdrawal_burned_retry
              (record_or_retry_withdrawal_burned_event st w) w.burn_id) :=
  ⟨record_or_retry_withdrawal_burned_event_disjoint,
    record_withdrawal_redeemed_event_disjoint,
    record_or_retry_withdrawal_burned_event_twice⟩

/-- C2 (witness): the amended preservation statements applied to
concrete one-entry states. -/
theorem withdrawal_exactly_one_preserved_amended_witness :
    WithdrawalDisjoint (record_or_retry_withdrawal_burned_event emptyState wA) ∧
      WithdrawalDisjoint stR1 := by
  constructor
  · exact withdrawal_exactly_one_preserved_amended.1 emptyState wA
      (withdrawalDisjoint_of_keys emptyState (by decide)) (by decide)
  · exact withdrawal_exactly_one_preserved_amended.2.1 stB1 wA stR1 (by decide)
      (withdrawalDisjoint_of_keys stB1 (by decide))

/-- C6: calling `record_or_retry_solana_signature` twice with the same
signature equals calling it once and then incrementing the stored
entry's retry counter by one; a call on an absent key inserts the
argument, and a call on a present key only increments the stored
entry's retry counter. -/
theorem record_or_retry_solana_signature_idempotent :
    (∀ (st : State) (sig : SolanaSignature),
        record_or_retry_solana_signature (record_or_retry_solana_signature st sig) sig
          = increment_signature_retry (record_or_retry_solana_signature st sig) sig.sol_sig)
    ∧ (∀ (st : State) (sig : SolanaSignature),
        AL.lookup st.solana_signatures sig.sol_sig = none →
        record_or_retry_solana_signature st sig
          = { st with solana_signatures := AL.insert st.solana_signatures sig.sol_sig sig })
    ∧ (∀ (st : State) (sig : SolanaSignature) (e : SolanaSignature),
        AL.lookup st.solana_signatures sig.sol_sig = some e →
        record_or_retry_solana_signature st sig = increment_signature_retry st sig.sol_sig) := by
  refine ⟨?_, ?_, ?_⟩
  · intro st sig
    cases hl : AL.lookup st.solana_signatures sig.sol_sig with
    | none =>
      simp [record_or_retry_solana_signature, increment_signature_retry, hl, AL.lookup_insert]
    | some e =>
      simp [record_or_retry_solana_signature, increment_signature_retry, hl, AL.lookup_insert]
  · intro st sig hl
    simp [record_or_retry_solana_signature, hl]
  · intro st sig e hl
    simp [record_or_retry_solana_signature, increment_signature_retry, hl]

/-- C6 (witness): the idempotence law evaluated on concrete states. -/
theorem record_or_retry_solana_signature_idempotent_witness :
    record_or_retry_solana_signature emptyState sigA
        = { emptyState with
            solana_signatures := AL.insert emptyState.solana_signatures sigA.sol_sig sigA } ∧
      record_or_retry_solana_signature stW1 sigA
        = increment_signature_retry stW1 sigA.sol_sig := by
  constructor
  · exact record_or_retry_solana_signature_idempotent.2.1 emptyState sigA (by decide)
  · exact record_or_retry_solana_signature_idempotent.2.2 stW1 sigA sigA (by decide)

deriving instance DecidableEq for Except

/-- A state with a configuration accepted by `validate_config`. -/
def validConfigState : State :=
  { emptyState with
    solana_rpc_url := "url"
    solana_contract_address := "addr"
    solana_initial_signature := "sig0"
    ecdsa_key_name := "key"
    minimum_withdrawal_amount := 1 }

/-- An upgrade delta that only blanks the ECDSA key name. -/
def blankKeyUpgrade : UpgradeArg :=
  { solana_rpc_url := none
    solana_contract_address := none
    solana_initial_signature := none
    ecdsa_key_name := some ""
    minimum_withdrawal_amount := none }

/-- C3 (counterexample): on a state with a valid configuration, the
upgrade that sets `ecdsa_key_name` to the blank string returns an
error, yet the state is not left unchanged: the blank key name has
already been written into the configuration when `validate_config`
runs. -/
theorem upgrade_rejection_state_counterexample :
    (State.upgrade validConfigState blankKeyUpgrade).2
        = Except.error (InvalidStateError.InvalidEcdsaKeyName "ecdsa_key_name cannot be blank") ∧
      (State.upgrade validConfigState blankKeyUpgrade).1 ≠ validConfigState ∧
      (State.upgrade validConfigState blankKeyUpgrade).1.ecdsa_key_name = "" ∧
      validConfigState.ecdsa_key_name = "key" := by
  refine ⟨by decide, by decide, by decide, by decide⟩

/-- C3 (amended): `State::upgrade` applies the upgrade delta field by
field and then validates the resulting configuration, returning exactly
the result of `validate_config` on it; the final state equals the
delta-applied state whether or not validation fails, so on rejection
the already-applied field modifications remain. -/
theorem upgrade_field_by_field_validation (s : State) (args : UpgradeArg) :
    (State.upgrade s args).1 = applyUpgradeDelta s args ∧
      (State.upgrade s args).2 = validate_config (applyUpgradeDelta s args) := by
  obtain ⟨u, c, i, k, m⟩ := args
  cases u <;> cases c <;> cases i <;> cases k <;> cases m <;>
    simp [State.upgrade, applyUpgradeDelta]

/-- C4 (counterexample): at the boundary where the cached expiry equals
the current time in seconds, `get_agent_token` returns the stale cached
token unchanged instead of signing a fresh one. -/
theorem get_agent_token_boundary_counterexample :
    (5 * SECONDS) / SECONDS = 5 ∧
      get_agent_token ("stale", 5) (5 * SECONDS) "key" (fun _ _ _ => "fresh")
        = ("stale", ("stale", 5)) := by
  refine ⟨by decide, by decide⟩

/-- C4 (amended): `get_agent_token` signs and caches a new proxy token
exactly when the cached expiry is strictly less than the current time in
seconds; the new token is signed with expiry `now / SECONDS +
REFRESH_PROXY_TOKEN_INTERVAL + 120` (the refresh interval plus a 120 s
skew) and cached until `now / SECONDS + REFRESH_PROXY_TOKEN_INTERVAL`.
Otherwise — including at the boundary where the cached expiry equals the
current time — the cached token is returned with the cache unchanged. -/
theorem get_agent_token_refresh_amended (cache : String × Nat) (now : Nat)
    (ecdsa_key_name : String) (sign_proxy_token : String → Nat → String → String) :
    (cache.2 < now / SECONDS →
      get_agent_token cache now ecdsa_key_name sign_proxy_token
        = (sign_proxy_token ecdsa_key_name
            (now / SECONDS + REFRESH_PROXY_TOKEN_INTERVAL + 120) AGENT_NAME,
           (sign_proxy_token ecdsa_key_name
            (now / SECONDS + REFRESH_PROXY_TOKEN_INTERVAL + 120) AGENT_NAME,
            now / SECONDS + REFRESH_PROXY_TOKEN_INTERVAL)))
    ∧ (now / SECONDS ≤ cache.2 →
      get_agent_token cache now ecdsa_key_name sign_proxy_token = (cache.1, cache)) := by
  constructor
  · intro h
    simp [get_agent_token, h]
  · intro h
    simp [get_agent_token, Nat.not_lt.mpr h]

/-- C4 (witness): the refresh and reuse branches evaluated at concrete
inputs. -/
theorem get_agent_token_refresh_amended_witness :
    ((0 : Nat) < SECONDS / SECONDS ∧
      get_agent_token ("old", 0) SECONDS "key" (fun _ _ _ => "fresh")
        = ("fresh", ("fresh", SECONDS / SECONDS + REFRESH_PROXY_TOKEN_INTERVAL)))
    ∧ ((0 : Nat) / SECONDS ≤ 5 ∧
      get_agent_token ("old", 5) 0 "key" (fun _ _ _ => "fresh") = ("old", ("old", 5))) := by
  refine ⟨⟨by decide, ?_⟩, ⟨by decide, ?_⟩⟩
  · exact (get_agent_token_refresh_amended ("old", 0) SECONDS "key"
      (fun _ _ _ => "fresh")).1 (by decide)
  · exact (get_agent_token_refresh_amended ("old", 5) 0 "key"
      (fun _ _ _ => "fresh")).2 (by decide)

/-- The `is_over_limit` trap condition as an if-then-else on the
ordering of the amount against the configured minimum. -/
theorem is_over_limit_spec (st : State) (amount : Nat) :
    is_over_limit st amount
      = if amount < st.minimum_withdrawal_amount then
          Except.error "withdraw amount is less than minimum withdrawal amount"
        else Except.ok () := by
  unfold is_over_limit
  by_cases h : amount < st.minimum_withdrawal_amount
  · rw [if_pos h, Nat.compare_eq_gt.mpr h]
  · rw [if_neg h]
    rcases Nat.lt_or_ge amount st.minimum_withdrawal_amount with hlt | hge
    · exact absurd hlt h
    · rcases Nat.lt_or_ge st.minimum_withdrawal_amount amount with hlt2 | hge2
      · rw [Nat.compare_eq_lt.mpr hlt2]
      · have heq : st.minimum_withdrawal_amount = amount := Nat.le_antisymm hge hge2
        rw [heq, Nat.compare_eq_eq.mpr rfl]

/-- C5: `withdraw` rejects any request with `amount <
minimum_withdrawal_amount` — by the anonymity trap for the anonymous
caller and otherwise by the `is_over_limit` trap — leaving the state
unchanged; the limit check passes at `amount ==
minimum_withdrawal_amount` and fails at `amount ==
minimum_withdrawal_amount - 1`. -/
theorem withdraw_minimum_amount_check (A : Type) (st : State) (caller : List Nat)
    (amount : Nat) (body : State → A × State) :
    (amount < st.minimum_withdrawal_amount →
      (withdraw st caller amount body).2 = st ∧
      (caller ≠ ANONYMOUS_PRINCIPAL →
        (withdraw st caller amount body).1
          = Except.error "withdraw amount is less than minimum withdrawal amount") ∧
      (caller = ANONYMOUS_PRINCIPAL →
        (withdraw st caller amount body).1
          = Except.error "anonymous principal is not allowed"))
    ∧ is_over_limit st st.minimum_withdrawal_amount = Except.ok ()
    ∧ (0 < st.minimum_withdrawal_amount →
      is_over_limit st (st.minimum_withdrawal_amount - 1)
        = Except.error "withdraw amount is less than minimum withdrawal amount") := by
  refine ⟨?_, ?_, ?_⟩
  · intro h
    by_cases hc : caller = ANONYMOUS_PRINCIPAL
    · refine ⟨by simp [withdraw, hc], fun hne => absurd hc hne, fun _ => by simp [withdraw, hc]⟩
    · refine ⟨?_, fun _ => ?_, fun heq => absurd heq hc⟩
      · simp [withdraw, hc, is_over_limit_spec, h]
      · simp [withdraw, hc, is_over_limit_spec, h]
  · rw [is_over_limit_spec]
    simp
  · intro h
    rw [is_over_limit_spec]
    rw [if_pos (by omega)]

/-- A state whose minimum withdrawal amount is 5. -/
def minState : State := { emptyState with minimum_withdrawal_amount := 5 }

/-- C5 (witness): the boundary behaviour evaluated at a concrete
minimum of 5 with a non-anonymous caller. -/
theorem withdraw_minimum_amount_check_witness :
    ((withdraw minState [9] 4 (fun s => ((), s))).2 = minState ∧
      (withdraw minState [9] 4 (fun s => ((), s))).1
        = Except.error "withdraw amount is less than minimum withdrawal amount")
    ∧ is_over_limit minState minState.minimum_withdrawal_amount = Except.ok ()
    ∧ is_over_limit minState (minState.minimum_withdrawal_amount - 1)
        = Except.error "withdraw amount is less than minimum withdrawal amount" := by
  have h := withdraw_minimum_amount_check Unit minState [9] 4 (fun s => ((), s))
  exact ⟨⟨(h.1 (by decide)).1, (h.1 (by decide)).2.1 (by decide)⟩,
    h.2.1, h.2.2 (by decide)⟩

/-- C7: the `max_response_bytes` budget handed to the transport is
computed exactly as `N * PER_ITEM + HEADER_CAP`:
`get_signatures_for_address` passes `limit *
SIGNATURE_RESPONSE_SIZE_ESTIMATE + HEADER_SIZE_LIMIT` and
`get_transactions` passes `signatures.len() *
TRANSACTION_RESPONSE_SIZE_ESTIMATE + HEADER_SIZE_LIMIT`, whenever the
`u64` arithmetic does not wrap. -/
theorem effective_size_estimate_formula (signature_response_size_estimate : Nat)
    (transaction_response_size_estimate : Nat) (header_size_limit : Nat)
    (rpc_url payload token idempotent_key : String) (limit : Nat)
    (signatures : List String) :
    (limit * signature_response_size_estimate + header_size_limit < 2 ^ 64 →
      (get_signatures_for_address_request signature_response_size_estimate
          header_size_limit rpc_url payload token idempotent_key limit).max_response_bytes
        = limit * signature_response_size_estimate + header_size_limit)
    ∧ (signatures.length * transaction_response_size_estimate + header_size_limit < 2 ^ 64 →
      (get_transactions_request transaction_response_size_estimate
          header_size_limit rpc_url payload token idempotent_key signatures).max_response_bytes
        = signatures.length * transaction_response_size_estimate + header_size_limit) := by
  constructor
  · intro h
    have hmod : (limit * signature_response_size_estimate + header_size_limit) % 2 ^ 64
        = limit * signature_response_size_estimate + header_size_limit :=
      Nat.mod_eq_of_lt h
    simpa [get_signatures_for_address_request, rpc_call_request,
      signatures_effective_size_estimate] using hmod
  · intro h
    have hmod : (signatures.length * transaction_response_size_estimate + header_size_limit)
          % 2 ^ 64
        = signatures.length * transaction_response_size_estimate + header_size_limit :=
      Nat.mod_eq_of_lt h
    simpa [get_transactions_request, rpc_call_request,
      transactions_effective_size_estimate] using hmod

/-- C7 (witness): the size budget formula evaluated at concrete
constants (500-byte signature entries, 10000-byte transaction entries,
a 2 KiB header cap) for a page of 10 signatures and a batch of 2
transactions. -/
theorem effective_size_estimate_formula_witness :
    (get_signatures_for_address_request 500 2048 "url" "payload" "tok" "key"
        10).max_response_bytes = 10 * 500 + 2048
    ∧ (get_transactions_request 10000 2048 "url" "payload" "tok" "key"
        ["a", "b"]).max_response_bytes = 2 * 10000 + 2048 := by
  constructor
  · exact (effective_size_estimate_formula 500 10000 2048 "url" "payload" "tok" "key"
      10 ["a", "b"]).1 (by decide)
  · exact (effective_size_estimate_formula 500 10000 2048 "url" "payload" "tok" "key"
      10 ["a", "b"]).2 (by decide)

/-- C8: `cleanup_response` empties the headers list and leaves the
status and body of the response unchanged. -/
theorem cleanup_response_strips_only_headers (args : TransformArgs) :
    (cleanup_response args).headers = [] ∧
      (cleanup_response args).status = args.response.status ∧
      (cleanup_response args).body = args.response.body :=
  ⟨rfl, rfl, rfl⟩

/-- C9: the outbound request built by `rpc_call` is independent of the
configured `solana_rpc_url`: two clients differing only in their RPC
URL build identical requests, and the target URL is the hardcoded
idempotent-proxy worker address. -/
theorem rpc_call_ignores_configured_rpc_url (url1 url2 payload token idempotent_key : String)
    (effective_size_estimate : Nat) :
    rpc_call_request url1 payload effective_size_estimate token idempotent_key
        = rpc_call_request url2 payload effective_size_estimate token idempotent_key ∧
      (rpc_call_request url1 payload effective_size_estimate token idempotent_key).url
        = "https://idempotent-proxy-cf-worker.rio-lee.workers.dev/URL_SOLANA_DEVNET" :=
  ⟨rfl, rfl⟩

/-- C10: the guarded update methods answer only the configured btown
NFT canister or a controller: any other caller is rejected by
`is_allowed_canister` with "caller is not a valid canister" before the
body runs, with the state unchanged; and under `DFX_NETWORK = "ic"` the
allowed canister is the hardcoded STAGING principal, which differs from
the MAINNET principal. -/
theorem guarded_update_allowlist (A : Type) (caller : List Nat)
    (controllers : List (List Nat)) (dfx_network_env : Option String)
    (body : State → A × State) (st : State) :
    (caller ≠ get_btown_nft_canister dfx_network_env → caller ∉ controllers →
      is_allowed_canister caller controllers dfx_network_env
          = Except.error "caller is not a valid canister" ∧
      run_guarded_update caller controllers dfx_network_env body st
          = (Except.error "caller is not a valid canister", st))
    ∧ get_btown_nft_canister (some "ic") = BTOWN_CANISTER_STAGING
    ∧ BTOWN_CANISTER_STAGING ≠ BTOWN_CANISTER_MAINNET := by
  refine ⟨?_, by decide, by decide⟩
  intro h1 h2
  have hg : is_allowed_canister caller controllers dfx_network_env
      = Except.error "caller is not a valid canister" := by
    unfold is_allowed_canister
    rw [if_neg]
    rintro (h | h)
    · exact h1 h
    · exact h2 h
  exact ⟨hg, by simp [run_guarded_update, hg]⟩

/-- C10 (witness): an unrelated caller with no controllers is rejected
on the "ic" network with the state unchanged. -/
theorem guarded_update_allowlist_witness :
    is_allowed_canister [9] [] (some "ic") = Except.error "caller is not a valid canister" ∧
      run_guarded_update [9] [] (some "ic") (fun s => ((), s)) emptyState
        = (Except.error "caller is not a valid canister", emptyState) :=
  (guarded_update_allowlist Unit [9] [] (some "ic") (fun s => ((), s)) emptyState).1
    (by decide) (by decide)

end GalacticBridge
